import Mathlib

/-!
Shallow embedding of the depth_SR repository core
(`src/models/cycle_cycle_last.py` and
`src/models/.ipynb_checkpoints/networks_for_SR-checkpoint.py`)
and proofs about it.

Tensors are modelled with exact rationals for the values the code computes
with binary floats; the square root appearing in the surface-normal
normalisation is modelled over the reals.  Python exceptions are modelled
with `Except`; a function that returns normally in the source (even when it
was arguably meant to raise) is modelled with a total return type.
-/

namespace DepthSR

/-- Torch dtypes, as far as the code inspects them (`f.dtype is torch.float32`). -/
inductive TorchDType where
  | float16
  | float32
  | float64
  | int32
  | int64
deriving DecidableEq, Repr

/-- Python exceptions raised by the embedded code. -/
inductive PyError where
  | typeError (msg : String)
  | indexError
  | notImplementedError (msg : String)
  | nameError (missing : String)
deriving DecidableEq, Repr

/-! ## SurfaceNormals (cycle_cycle_last.py lines 10-65)

A depth tensor of shape [N,1,H,W] is modelled one sample and channel at a
time: the spatial [H,W] grid together with its dtype.  The `d` field is a
total function; out-of-range indexing in the source is captured by the
bounds guards of `gradient_for_normals` below. -/

/-- A single [H,W] spatial slice of a torch tensor, with its dtype. -/
structure Tensor4 where
  H : Nat
  W : Nat
  dtype : TorchDType
  d : Nat → Nat → ℚ

/-- Per-index value written into `out` by the three disjoint slice
assignments of `gradient_for_normals` (interior central difference, then the
two one-sided edge differences); meaningful when the axis has extent
`n ≥ 2`, which is exactly when the slice assignments are in bounds. -/
def gradVal (n : Nat) (f : Nat → ℚ) (i : Nat) : ℚ :=
  if i = 0 then f 1 - f 0
  else if i = n - 1 then f (n - 1) - f (n - 2)
  else (f (i + 1) - f (i - 1)) / 2

/-- Embedding of `SurfaceNormals.gradient_for_normals(f, axis)`.
The dtype guard mirrors lines 34-38 (a `TypeError` before any indexing);
the bounds guards mirror the integer indexing `f[1]` / `f[-2]` along the
chosen axis (lines 52-64), which is in range exactly when that axis has
extent at least 2.  Axis 2 is the H axis, axis 3 the W axis of [N,1,H,W]. -/
def gradient_for_normals (f : Tensor4) (axis : Nat) : Except PyError Tensor4 :=
  if f.dtype = TorchDType.float32 then
    if axis = 2 then
      if 2 ≤ f.H then
        .ok ⟨f.H, f.W, f.dtype, fun i j => gradVal f.H (fun k => f.d k j) i⟩
      else .error .indexError
    else
      if 2 ≤ f.W then
        .ok ⟨f.H, f.W, f.dtype, fun i j => gradVal f.W (fun k => f.d i k) j⟩
      else .error .indexError
  else .error (.typeError "Input shold be torch.float32")

/-- Output of `SurfaceNormals.forward`: the three channels of the [N,3,H,W]
normal map, one sample at a time. -/
@[ext]
structure NormalMap where
  H : Nat
  W : Nat
  nx : Nat → Nat → ℝ
  ny : Nat → Nat → ℝ
  nz : Nat → Nat → ℝ

/-- Embedding of `SurfaceNormals.forward(depth)` (lines 15-20):
`dzdx = -gradient(depth, axis=2)`, `dzdy = -gradient(depth, axis=3)`,
stack `(dzdx, dzdy, 1)` along the channel axis, and divide each channel by
the per-pixel L2 norm of the stack plus `1e-6`. -/
noncomputable def SurfaceNormals_forward (depth : Tensor4) : Except PyError NormalMap := do
  let gx ← gradient_for_normals depth 2
  let gy ← gradient_for_normals depth 3
  let dzdx : Nat → Nat → ℝ := fun i j => -((gx.d i j : ℚ) : ℝ)
  let dzdy : Nat → Nat → ℝ := fun i j => -((gy.d i j : ℚ) : ℝ)
  let n : Nat → Nat → ℝ := fun i j =>
    Real.sqrt (dzdx i j ^ 2 + dzdy i j ^ 2 + 1 ^ 2)
  return { H := depth.H, W := depth.W,
           nx := fun i j => dzdx i j / (n i j + 1e-6),
           ny := fun i j => dzdy i j / (n i j + 1e-6),
           nz := fun i j => 1 / (n i j + 1e-6) }

/-- Spec-side formula for the gradient along the H axis, in the words of the
claim: central difference `(f[i+1] - f[i-1]) / 2` on interior indices and the
one-sided differences `f[1] - f[0]` and `f[-1] - f[-2]` at the endpoints. -/
def claimGradH (t : Tensor4) (i j : Nat) : ℚ :=
  if i = 0 then t.d 1 j - t.d 0 j
  else if i = t.H - 1 then t.d (t.H - 1) j - t.d (t.H - 2) j
  else (t.d (i + 1) j - t.d (i - 1) j) / 2

/-- Spec-side formula for the gradient along the W axis (same scheme). -/
def claimGradW (t : Tensor4) (i j : Nat) : ℚ :=
  if j = 0 then t.d i 1 - t.d i 0
  else if j = t.W - 1 then t.d i (t.W - 1) - t.d i (t.W - 2)
  else (t.d i (j + 1) - t.d i (j - 1)) / 2

/-- Spec-side normal map in the words of the claim: negate both gradients,
stack with a constant-1 third channel, divide by the L2 norm plus `1e-6`. -/
noncomputable def claimNormal (t : Tensor4) : NormalMap :=
  { H := t.H, W := t.W,
    nx := fun i j => -((claimGradH t i j : ℚ) : ℝ) /
      (Real.sqrt (((claimGradH t i j : ℚ) : ℝ) ^ 2 + ((claimGradW t i j : ℚ) : ℝ) ^ 2 + 1) + 1e-6),
    ny := fun i j => -((claimGradW t i j : ℚ) : ℝ) /
      (Real.sqrt (((claimGradH t i j : ℚ) : ℝ) ^ 2 + ((claimGradW t i j : ℚ) : ℝ) ^ 2 + 1) + 1e-6),
    nz := fun i j => 1 /
      (Real.sqrt (((claimGradH t i j : ℚ) : ℝ) ^ 2 + ((claimGradW t i j : ℚ) : ℝ) ^ 2 + 1) + 1e-6) }

/-! ## Loss primitives

Loss-level tensors are modelled as batches of flattened per-sample pixel
lists (`List (List ℚ)`); elementwise reductions over a whole [N,C,H,W]
tensor act on the joined list.  A 3-channel normal map that takes part in an
L1 loss is modelled channel-separated (`Normal3`), each channel pixel-aligned
with the joined depth list, which makes the [N,1,H,W] → [N,3,H,W] mask
broadcasting of the source explicit. -/

/-- Sum of absolute elementwise differences. -/
def sumAbsDiff (a b : List ℚ) : ℚ :=
  ((a.zip b).map fun p => |p.1 - p.2|).sum

/-- Embedding of `torch.nn.L1Loss()` (mean reduction) on 1-channel tensors:
mean absolute elementwise difference. -/
def l1 (a b : List ℚ) : ℚ :=
  sumAbsDiff a b / a.length

/-- The three channels of a normal map, flattened over N·H·W pixels. -/
structure Normal3 where
  x : List ℚ
  y : List ℚ
  z : List ℚ
deriving DecidableEq, Repr

/-- Embedding of `torch.nn.L1Loss()` on 3-channel normal tensors: the same
mean absolute difference, the element count being three per pixel. -/
def l1n (a b : Normal3) : ℚ :=
  (sumAbsDiff a.x b.x + sumAbsDiff a.y b.y + sumAbsDiff a.z b.z) / (3 * a.x.length)

/-- Mean squared error of a prediction list against a constant target. -/
def mse (p : List ℚ) (t : ℚ) : ℚ :=
  (p.map fun v => (v - t) ^ 2).sum / p.length

/-- Modelled from the spec: `networks.GANLoss` (file `models/networks.py`,
not under src/) in the default `lsgan` mode — "least-squares GAN objective —
mean squared error between discriminator output ... and target label 1
[resp. 0]".  The target tensor is the label expanded to the prediction
shape. -/
def criterionGAN (pred : List ℚ) (target_is_real : Bool) : ℚ :=
  mse pred (if target_is_real then 1 else 0)

/-- Embedding of `torch.where(t < -0.97, 0., 1.)`, the 0/1 depth-threshold
mask used by `use_idt_masks` / `use_rec_masks` (lines 309-310, 341-342). -/
def maskWhere (d : List ℚ) : List ℚ :=
  d.map fun v => if v < -0.97 then 0 else 1

/-- Elementwise product of two pixel lists. -/
def hadamard (a b : List ℚ) : List ℚ :=
  (a.zip b).map fun p => p.1 * p.2

/-- A [N,1,H,W] mask multiplied onto a [N,3,H,W] normal tensor broadcasts
over the channel axis: each channel is multiplied elementwise. -/
def maskN3 (n : Normal3) (m : List ℚ) : Normal3 :=
  ⟨hadamard n.x m, hadamard n.y m, hadamard n.z m⟩

/-- Embedding of `torch.where(t < -0.99, 1., 0.)`, the hole mask of the IoU
block (lines 354-355). -/
def holes (d : List ℚ) : List ℚ :=
  d.map fun v => if v < -0.99 then 1 else 0

/-- Embedding of `torch.where((a == 1) & (b == 1), 1., 0.)` (line 356). -/
def andMask (a b : List ℚ) : List ℚ :=
  (a.zip b).map fun p => if p.1 = 1 ∧ p.2 = 1 then 1 else 0

/-- The `SMOOTH = 1e-6` constant of the IoU block (line 357). -/
def SMOOTH : ℚ := 1e-6

/-- Mean of a rational list (`torch.mean`). -/
def meanQ (l : List ℚ) : ℚ :=
  l.sum / l.length

/-- Per-sample IoU of the `use_rec_iou_error` block (lines 354-361): hole
masks at threshold −0.99, `intersection = Σ(-rec_B · mask_and)` over the
spatial dims, `union = Σ(-rec_B · rec_holes) + Σ(-real_depth · real_holes) −
intersection`, `iou = (intersection + SMOOTH) / (union + SMOOTH)`. -/
def iouSample (real_depth rec_B : List ℚ) : ℚ :=
  let real_holes := holes real_depth
  let rec_holes := holes rec_B
  let mask_and := andMask real_holes rec_holes
  let intersection := (hadamard (rec_B.map fun v => -v) mask_and).sum
  let union := (hadamard (rec_B.map fun v => -v) rec_holes).sum +
    (hadamard (real_depth.map fun v => -v) real_holes).sum - intersection
  (intersection + SMOOTH) / (union + SMOOTH)

/-- The recorded `loss_iou_rec` value (lines 359-367): the per-sample IoU
averaged over the batch, times 0.5. -/
def loss_iou_rec_val (real_depth rec_B : List (List ℚ)) : ℚ :=
  meanQ (List.zipWith iouSample real_depth rec_B) * 0.5

/-! ## backward_G (cycle_cycle_last.py lines 291-375) -/

/-- The configuration flags read by `backward_G` and
`optimize_parameters`. -/
structure Opt where
  lambda_identity : ℚ
  lambda_A : ℚ
  lambda_B : ℚ
  w_norm_idt : ℚ
  w_norm_cycle : ℚ
  use_idt_masks : Bool
  use_rec_masks : Bool
  use_rec_iou_error : Bool
  back_rec_iou_error : Bool

/-- The fields of the model read by `backward_G`.  Depth-valued tensors are
batches of flattened samples; normal maps compared by L1 are
channel-separated (`Normal3`); the fake tensors and their normal maps, which
are only concatenated and fed to the discriminators, are batches of
flattened samples. -/
structure GState where
  syn_depth : List (List ℚ)
  real_depth : List (List ℚ)
  rec_A : List (List ℚ)
  rec_B : List (List ℚ)
  idt_A : List (List ℚ)
  idt_B : List (List ℚ)
  fake_A : List (List ℚ)
  fake_B : List (List ℚ)
  norm_fake_A : List (List ℚ)
  norm_fake_B : List (List ℚ)
  norm_syn : Normal3
  norm_real : Normal3
  norm_rec_A : Normal3
  norm_rec_B : Normal3
  norm_idt_A : Normal3
  norm_idt_B : Normal3

/-- Per-sample channel concatenation `torch.cat([a, b], dim=1)` on batches
of flattened samples. -/
def catB (a b : List (List ℚ)) : List (List ℚ) :=
  List.zipWith (fun x y => x ++ y) a b

/-- The loss attributes `backward_G` assigns.  Attributes only assigned on
some paths (`loss_idt_A_norm`, `loss_idt_B_norm`, `loss_iou_rec`) are
`Option`s, `none` meaning the attribute is not set by this call. -/
structure GLosses where
  idt_A_norm : Option ℚ
  idt_B_norm : Option ℚ
  idt_A : ℚ
  idt_B : ℚ
  G_A : ℚ
  G_B : ℚ
  cycle_A_norm : ℚ
  cycle_A : ℚ
  cycle_B_norm : ℚ
  cycle_B : ℚ
  iou_rec : Option ℚ
  G : ℚ

/-- Embedding of `CycleGANModel.backward_G` (lines 291-375).  `netD_A` and
`netD_B` are the discriminators as opaque batch-in, prediction-out maps. -/
def backward_G (opt : Opt) (netD_A netD_B : List (List ℚ) → List ℚ)
    (s : GState) : GLosses :=
  let lambda_idt := opt.lambda_identity
  let lambda_A := opt.lambda_A
  let lambda_B := opt.lambda_B
  -- Identity loss (lines 305-327)
  let idt : Option ℚ × Option ℚ × ℚ × ℚ :=
    if 0 < lambda_idt then
      let iA : ℚ × ℚ :=
        if opt.use_idt_masks then
          let mask_real := maskWhere s.real_depth.flatten
          let mask_idn := maskWhere s.idt_A.flatten
          let loss_idt_A_norm :=
            l1n (maskN3 (maskN3 s.norm_idt_A mask_real) mask_idn)
              (maskN3 (maskN3 s.norm_real mask_real) mask_idn) * lambda_B * lambda_idt
          let loss_idt_A :=
            l1 (hadamard (hadamard s.idt_A.flatten mask_real) mask_idn)
              (hadamard (hadamard s.real_depth.flatten mask_real) mask_idn) * lambda_B * lambda_idt +
              loss_idt_A_norm * opt.w_norm_idt
          (loss_idt_A_norm, loss_idt_A)
        else
          let loss_idt_A_norm := l1n s.norm_idt_A s.norm_real * lambda_B * lambda_idt
          let loss_idt_A := l1 s.idt_A.flatten s.real_depth.flatten * lambda_B * lambda_idt +
            loss_idt_A_norm * opt.w_norm_idt
          (loss_idt_A_norm, loss_idt_A)
      let loss_idt_B_norm := l1n s.norm_idt_B s.norm_syn * lambda_A * lambda_idt
      let loss_idt_B := l1 s.idt_B.flatten s.syn_depth.flatten * lambda_A * lambda_idt +
        loss_idt_B_norm * opt.w_norm_idt
      (some iA.1, some loss_idt_B_norm, iA.2, loss_idt_B)
    else
      (none, none, 0, 0)
  -- GAN losses (lines 333-335)
  let loss_G_A := criterionGAN (netD_A (catB s.fake_B s.norm_fake_B)) true
  let loss_G_B := criterionGAN (netD_B (catB s.fake_A s.norm_fake_A)) true
  -- Forward cycle loss (lines 337-338)
  let loss_cycle_A_norm := l1n s.norm_rec_A s.norm_syn * lambda_A
  let loss_cycle_A := l1 s.rec_A.flatten s.syn_depth.flatten * lambda_A +
    loss_cycle_A_norm * opt.w_norm_cycle
  -- Backward cycle loss (lines 340-348); note the else branch does not add
  -- the norm sub-term into loss_cycle_B
  let cycB : ℚ × ℚ :=
    if opt.use_rec_masks then
      let mask_real := maskWhere s.real_depth.flatten
      let mask_rec := maskWhere s.rec_B.flatten
      let loss_cycle_B_norm :=
        l1n (maskN3 (maskN3 s.norm_rec_B mask_real) mask_rec)
          (maskN3 (maskN3 s.norm_real mask_real) mask_rec) * lambda_B
      let loss_cycle_B :=
        l1 (hadamard (hadamard s.rec_B.flatten mask_real) mask_rec)
          (hadamard (hadamard s.real_depth.flatten mask_real) mask_rec) * lambda_B +
          loss_cycle_B_norm * opt.w_norm_cycle
      (loss_cycle_B_norm, loss_cycle_B)
    else
      let loss_cycle_B_norm := l1n s.norm_rec_B s.norm_real * lambda_B
      let loss_cycle_B := l1 s.rec_B.flatten s.real_depth.flatten * lambda_B
      (loss_cycle_B_norm, loss_cycle_B)
  -- Total (line 350) and the IoU block (lines 353-369)
  let loss_G0 := loss_G_A + loss_G_B + loss_cycle_A + cycB.2 + idt.2.2.1 + idt.2.2.2
  let iou : Option ℚ × ℚ :=
    if opt.use_rec_iou_error then
      let v := loss_iou_rec_val s.real_depth s.rec_B
      (some v, if opt.back_rec_iou_error then loss_G0 + v else loss_G0)
    else
      (none, loss_G0)
  { idt_A_norm := idt.1, idt_B_norm := idt.2.1, idt_A := idt.2.2.1, idt_B := idt.2.2.2,
    G_A := loss_G_A, G_B := loss_G_B,
    cycle_A_norm := loss_cycle_A_norm, cycle_A := loss_cycle_A,
    cycle_B_norm := cycB.1, cycle_B := cycB.2,
    iou_rec := iou.1, G := iou.2 }

/-! ## ImagePool and backward_D (cycle_cycle_last.py lines 256-289) -/

/-- Modelled from the spec: `util.image_pool.ImagePool` is imported by the
model but its source is not under src/.  Per spec §4.1 it is a bounded
ordered collection of capacity `pool_size` of previously generated samples. -/
structure ImagePool where
  pool_size : Nat
  images : List (List ℚ)

/-- Modelled from the spec: one sample of `ImagePool.query`.  Per spec §4.1:
capacity 0 degrades to identity passthrough; below capacity the sample is
appended and returned unchanged; at capacity, with probability 0.5 (the
`coin`) the incoming sample is returned and inserted at a uniformly random
index (the `idx` oracle value, reduced modulo the size), evicting the
occupant, otherwise the stored sample at that index is returned and kept. -/
def ImagePool.queryOne (p : ImagePool) (img : List ℚ) (coin : Bool) (idx : Nat) :
    ImagePool × List ℚ :=
  if p.pool_size = 0 then (p, img)
  else if p.images.length < p.pool_size then
    ({ p with images := p.images ++ [img] }, img)
  else if coin then
    ({ p with images := p.images.set (idx % p.images.length) img }, img)
  else
    (p, p.images.getD (idx % p.images.length) img)

/-- Modelled from the spec: `ImagePool.query` over a batch, one independent
coin/index oracle pair per sample, outputs index-aligned with the input. -/
def ImagePool.query (p : ImagePool) (batch : List (List ℚ)) (rand : List (Bool × Nat)) :
    ImagePool × List (List ℚ) :=
  match batch, rand with
  | [], _ => (p, [])
  | _, [] => (p, [])
  | img :: batch, r :: rand =>
    let q := p.queryOne img r.1 r.2
    let rest := q.1.query batch rand
    (rest.1, q.2 :: rest.2)

/-- Value-level embedding of `tensor.detach()`: the same values, gradient
tracking (out of scope of this value model) removed. -/
def detach (t : List (List ℚ)) : List (List ℚ) := t

/-- Embedding of `CycleGANModel.backward_D_basic` (lines 256-278): LSGAN
loss of the discriminator on the real batch against label 1 plus on the
detached fake batch against label 0, halved. -/
def backward_D_basic (netD : List (List ℚ) → List ℚ) (real fake : List (List ℚ)) : ℚ :=
  let pred_real := netD real
  let loss_D_real := criterionGAN pred_real true
  let pred_fake := netD (detach fake)
  let loss_D_fake := criterionGAN pred_fake false
  (loss_D_real + loss_D_fake) * 0.5

/-- The model fields read by `backward_D_A` / `backward_D_B`, with the two
replay buffers. -/
structure DState where
  fake_B : List (List ℚ)
  fake_A : List (List ℚ)
  norm_fake_B : List (List ℚ)
  norm_fake_A : List (List ℚ)
  real_depth : List (List ℚ)
  syn_depth : List (List ℚ)
  norm_real : List (List ℚ)
  norm_syn : List (List ℚ)
  fake_B_pool : ImagePool
  fake_A_pool : ImagePool

/-- Embedding of `CycleGANModel.backward_D_A` (lines 280-284): the fake is
the B-domain pool queried with `cat([fake_B, norm_fake_B], dim=1)`, the real
is `cat([real_depth, norm_real], dim=1)`; returns the mutated pool and
`loss_D_A`. -/
def backward_D_A (netD_A : List (List ℚ) → List ℚ) (s : DState)
    (rand : List (Bool × Nat)) : ImagePool × ℚ :=
  let q := s.fake_B_pool.query (catB s.fake_B s.norm_fake_B) rand
  (q.1, backward_D_basic netD_A (catB s.real_depth s.norm_real) q.2)

/-- Embedding of `CycleGANModel.backward_D_B` (lines 286-289). -/
def backward_D_B (netD_B : List (List ℚ) → List ℚ) (s : DState)
    (rand : List (Bool × Nat)) : ImagePool × ℚ :=
  let q := s.fake_A_pool.query (catB s.fake_A s.norm_fake_A) rand
  (q.1, backward_D_basic netD_B (catB s.syn_depth s.norm_syn) q.2)

/-! ## optimize_parameters (cycle_cycle_last.py lines 377-392)

Parameters and gradient buffers are modelled as rational vectors.  The
gradient values autograd would produce and the updates the two Adam
optimizers would apply are opaque oracle data; what is embedded is the
control flow of `optimize_parameters`: which parameters each optimizer step
can touch (fixed by the construction of `optimizer_G` / `optimizer_D` on
lines 163-164 from the generator resp. discriminator parameters only), the
`requires_grad` gating of gradient accumulation, and the update cadence. -/

/-- Parameters and gradient buffers of the four networks, plus the shared
`requires_grad` flag of the two discriminators. -/
structure Nets where
  netG_A : List ℚ
  netG_B : List ℚ
  netD_A : List ℚ
  netD_B : List ℚ
  gradG_A : List ℚ
  gradG_B : List ℚ
  gradD_A : List ℚ
  gradD_B : List ℚ
  reqD : Bool

/-- Oracle data for one training step: the gradient contributions each
`backward` call produces, and the per-parameter updates of the two Adam
optimizers as functions of (parameter, gradient buffer). -/
structure Autograd where
  bG_gA : List ℚ
  bG_gB : List ℚ
  bG_dA : List ℚ
  bG_dB : List ℚ
  bDA_dA : List ℚ
  bDB_dB : List ℚ
  stepG : List ℚ → List ℚ → List ℚ
  stepD : List ℚ → List ℚ → List ℚ

/-- Elementwise gradient accumulation. -/
def accum (g c : List ℚ) : List ℚ := List.zipWith (fun a b => a + b) g c

/-- A zero gradient buffer of the same shape. -/
def zerosLike (g : List ℚ) : List ℚ := g.map fun _ => 0

/-- Embedding of `set_requires_grad([netD_A, netD_B], b)`. -/
def set_requires_grad_D (m : Nets) (b : Bool) : Nets := { m with reqD := b }

/-- Embedding of `optimizer_G.zero_grad()`: `optimizer_G` holds exactly the
parameters of `netG_A` and `netG_B` (line 163), so only their buffers are
zeroed. -/
def optimizer_G_zero_grad (m : Nets) : Nets :=
  { m with gradG_A := zerosLike m.gradG_A, gradG_B := zerosLike m.gradG_B }

/-- Embedding of the gradient effect of `self.backward_G()`
(`loss_G.backward()`): accumulate into the generator buffers always, and
into the discriminator buffers only when they require grad. -/
def backward_G_grads (o : Autograd) (m : Nets) : Nets :=
  { m with
    gradG_A := accum m.gradG_A o.bG_gA
    gradG_B := accum m.gradG_B o.bG_gB
    gradD_A := if m.reqD then accum m.gradD_A o.bG_dA else m.gradD_A
    gradD_B := if m.reqD then accum m.gradD_B o.bG_dB else m.gradD_B }

/-- Embedding of `optimizer_G.step()`: updates exactly the parameters the
optimizer was constructed with, `netG_A` and `netG_B`. -/
def optimizer_G_step (o : Autograd) (m : Nets) : Nets :=
  { m with netG_A := o.stepG m.netG_A m.gradG_A, netG_B := o.stepG m.netG_B m.gradG_B }

/-- Embedding of `optimizer_D.zero_grad()` (optimizer over `netD_A`,
`netD_B`, line 164). -/
def optimizer_D_zero_grad (m : Nets) : Nets :=
  { m with gradD_A := zerosLike m.gradD_A, gradD_B := zerosLike m.gradD_B }

/-- Gradient effect of `self.backward_D_A()` (`loss_D_A.backward()`). -/
def backward_D_A_grads (o : Autograd) (m : Nets) : Nets :=
  { m with gradD_A := if m.reqD then accum m.gradD_A o.bDA_dA else m.gradD_A }

/-- Gradient effect of `self.backward_D_B()` (`loss_D_B.backward()`). -/
def backward_D_B_grads (o : Autograd) (m : Nets) : Nets :=
  { m with gradD_B := if m.reqD then accum m.gradD_B o.bDB_dB else m.gradD_B }

/-- Embedding of `optimizer_D.step()`. -/
def optimizer_D_step (o : Autograd) (m : Nets) : Nets :=
  { m with netD_A := o.stepD m.netD_A m.gradD_A, netD_B := o.stepD m.netD_B m.gradD_B }

/-- The generator phase of `optimize_parameters` (lines 382-385): freeze the
discriminators, zero generator gradients, backpropagate `loss_G`, step the
generator optimizer. -/
def generator_phase (o : Autograd) (m : Nets) : Nets :=
  optimizer_G_step o (backward_G_grads o (optimizer_G_zero_grad (set_requires_grad_D m false)))

/-- The discriminator phase of `optimize_parameters` (lines 388-392). -/
def discriminator_phase (o : Autograd) (m : Nets) : Nets :=
  optimizer_D_step o
    (backward_D_B_grads o (backward_D_A_grads o (optimizer_D_zero_grad (set_requires_grad_D m true))))

/-- Embedding of `CycleGANModel.optimize_parameters(iters, fr)` (lines
377-392), written as the statement sequence of the source (the forward pass does
not touch parameters and is omitted from the parameter model). -/
def optimize_parameters (o : Autograd) (m : Nets) (iters fr : Nat) : Nets :=
  let m1 := set_requires_grad_D m false
  let m2 := optimizer_G_zero_grad m1
  let m3 := backward_G_grads o m2
  let m4 := optimizer_G_step o m3
  if iters % fr = 0 then
    let m5 := set_requires_grad_D m4 true
    let m6 := optimizer_D_zero_grad m5
    let m7 := backward_D_A_grads o m6
    let m8 := backward_D_B_grads o m7
    optimizer_D_step o m8
  else m4

/-! ## Configuration factories (networks_for_SR-checkpoint.py lines 21-162) -/

/-- The four normalization layers `get_norm_layer` can build. -/
inductive NormLayerKind where
  | batchNorm
  | instanceNorm
  | groupNorm
  | identityNorm
deriving DecidableEq, Repr

/-- Embedding of `get_norm_layer(norm_type)` (lines 21-40): four recognized
names, any other raises `NotImplementedError` with a message naming the bad
value. -/
def get_norm_layer (norm_type : String) : Except PyError NormLayerKind :=
  if norm_type = "batch" then .ok .batchNorm
  else if norm_type = "instance" then .ok .instanceNorm
  else if norm_type = "group" then .ok .groupNorm
  else if norm_type = "none" then .ok .identityNorm
  else .error (.notImplementedError ("normalization layer [" ++ norm_type ++ "] is not found"))

/-- What `get_scheduler` hands back to its caller: one of the four scheduler
objects, or — on the unrecognized-policy path — the `NotImplementedError`
exception object itself, which line 68 `return`s instead of raising.  The
object keeps its constructor arguments unformatted: the call passes the
format string and the policy as two separate arguments, so the message does
not contain the bad value. -/
inductive SchedulerObj where
  | lambdaLR
  | stepLR
  | reduceLROnPlateau
  | cosineAnnealingLR
  | notImplementedObj (fmt : String) (arg : String)
deriving DecidableEq, Repr

/-- Embedding of `get_scheduler(optimizer, opt)` (lines 43-69).  The return
type is total: no branch raises; the unrecognized-policy branch returns the
exception object. -/
def get_scheduler (lr_policy : String) : SchedulerObj :=
  if lr_policy = "linear" then .lambdaLR
  else if lr_policy = "step" then .stepLR
  else if lr_policy = "plateau" then .reduceLROnPlateau
  else if lr_policy = "cosine" then .cosineAnnealingLR
  else .notImplementedObj "learning rate policy [%s] is not implemented" lr_policy

/-- The generator bodies `define_net` can build. -/
inductive GenArch where
  | resnet9blocks
  | resnet6blocks
  | unet128
deriving DecidableEq, Repr

/-- Embedding of `define_net(...)` (lines 124-162): `get_norm_layer` is
called first (line 152); three recognized architecture names; the fallback
`raise NotImplementedError(<format> % netG)` references the undefined name `netG` (the parameter is `net_type`),
so evaluating the message raises `NameError` — a fatal error whose message
does not name the bad value. -/
def define_net (net_type : String) (norm : String) : Except PyError GenArch := do
  let _ ← get_norm_layer norm
  if net_type = "EncoderDepth" then .ok .resnet9blocks
  else if net_type = "DenseNet" then .ok .resnet6blocks
  else if net_type = "unet_128" then .ok .unet128
  else .error (.nameError "netG")

/-! ## Concrete instances used by counterexamples and witnesses -/

/-- An all-zero one-pixel normal map. -/
def exN3zero : Normal3 := ⟨[0], [0], [0]⟩

/-- A one-pixel model state whose only nonzero field is the x channel of
`norm_rec_B`. -/
def exStateA : GState :=
  { syn_depth := [[0]], real_depth := [[0]], rec_A := [[0]], rec_B := [[0]],
    idt_A := [[0]], idt_B := [[0]], fake_A := [[0]], fake_B := [[0]],
    norm_fake_A := [[0]], norm_fake_B := [[0]],
    norm_syn := exN3zero, norm_real := exN3zero, norm_rec_A := exN3zero,
    norm_rec_B := ⟨[1], [0], [0]⟩, norm_idt_A := exN3zero, norm_idt_B := exN3zero }

/-- Identity loss off, `w_norm_cycle = 1`, all masking and IoU flags off. -/
def exOptA : Opt :=
  { lambda_identity := 0, lambda_A := 1, lambda_B := 1, w_norm_idt := 0, w_norm_cycle := 1,
    use_idt_masks := false, use_rec_masks := false, use_rec_iou_error := false,
    back_rec_iou_error := false }

/-- Identity masking on with unit weights. -/
def exOptB : Opt :=
  { lambda_identity := 1, lambda_A := 1, lambda_B := 1, w_norm_idt := 0, w_norm_cycle := 0,
    use_idt_masks := true, use_rec_masks := false, use_rec_iou_error := false,
    back_rec_iou_error := false }

/-- A one-pixel state whose `syn_depth` pixel −1 lies below the −0.97
threshold while `idt_B` is 0 there. -/
def exStateB : GState :=
  { syn_depth := [[-1]], real_depth := [[0]], rec_A := [[0]], rec_B := [[0]],
    idt_A := [[0]], idt_B := [[0]], fake_A := [[0]], fake_B := [[0]],
    norm_fake_A := [[0]], norm_fake_B := [[0]],
    norm_syn := exN3zero, norm_real := exN3zero, norm_rec_A := exN3zero,
    norm_rec_B := exN3zero, norm_idt_A := exN3zero, norm_idt_B := exN3zero }

/-- IoU logging on, everything else off. -/
def exOptC : Opt :=
  { lambda_identity := 0, lambda_A := 1, lambda_B := 1, w_norm_idt := 0, w_norm_cycle := 0,
    use_idt_masks := false, use_rec_masks := false, use_rec_iou_error := true,
    back_rec_iou_error := false }

/-- A one-pixel state with `real_depth = rec_B = −1`, entirely below the
−0.99 IoU threshold. -/
def exStateC : GState :=
  { syn_depth := [[0]], real_depth := [[-1]], rec_A := [[0]], rec_B := [[-1]],
    idt_A := [[0]], idt_B := [[0]], fake_A := [[0]], fake_B := [[0]],
    norm_fake_A := [[0]], norm_fake_B := [[0]],
    norm_syn := exN3zero, norm_real := exN3zero, norm_rec_A := exN3zero,
    norm_rec_B := exN3zero, norm_idt_A := exN3zero, norm_idt_B := exN3zero }

/-- A two-pixel state entirely below −0.99 with different column sums for
`real_depth` and `rec_B`. -/
def exStateD : GState :=
  { syn_depth := [[0, 0]], real_depth := [[-1, -(199 : ℚ)/200]], rec_A := [[0, 0]],
    rec_B := [[-1, -1]],
    idt_A := [[0, 0]], idt_B := [[0, 0]], fake_A := [[0, 0]], fake_B := [[0, 0]],
    norm_fake_A := [[0, 0]], norm_fake_B := [[0, 0]],
    norm_syn := exN3zero, norm_real := exN3zero, norm_rec_A := exN3zero,
    norm_rec_B := exN3zero, norm_idt_A := exN3zero, norm_idt_B := exN3zero }

/-- A 2×2 float32 depth tensor. -/
def exT32 : Tensor4 := ⟨2, 2, TorchDType.float32, fun i j => (i : ℚ) * 3 + (j : ℚ)⟩

/-- A 2×2 float64 depth tensor. -/
def exT64 : Tensor4 := ⟨2, 2, TorchDType.float64, fun i j => (i : ℚ) + (j : ℚ)⟩

/-- A 1×5 float32 depth tensor (H = 1 < 2). -/
def exT32thin : Tensor4 := ⟨1, 5, TorchDType.float32, fun _ _ => 0⟩

/-! ## Theorems -/

/-- C4: the claim that every unrecognized configuration value raises a
fatal error with a descriptive message naming the bad value is the clear
intent, but the code slips twice.  At the failing inputs: `get_norm_layer`
does raise an error naming the value; `get_scheduler` returns the
`NotImplementedError` object instead of raising it (and the message keeps
`%s` unformatted, the bad value passed as a separate argument);
`define_net` raises, but a `NameError` for the undefined name `netG`, so
the message does not name the bad value. -/
theorem C4_unrecognized_config_eval :
    get_norm_layer "foo" =
      Except.error (PyError.notImplementedError "normalization layer [foo] is not found") ∧
    get_scheduler "foo" =
      SchedulerObj.notImplementedObj "learning rate policy [%s] is not implemented" "foo" ∧
    define_net "foo" "batch" = Except.error (PyError.nameError "netG") := by
  refine ⟨rfl, rfl, rfl⟩

/-- C5: each discriminator loss is the average of the mean squared error of
the discriminator on the real 4-channel input (depth concatenated with its
normal map) against label 1 and on the replay-buffer query of the generated
4-channel input against label 0. -/
theorem C5_discriminator_loss (netDA netDB : List (List ℚ) → List ℚ) (s : DState)
    (randA randB : List (Bool × Nat)) :
    (backward_D_A netDA s randB).2 =
      (mse (netDA (catB s.real_depth s.norm_real)) 1 +
        mse (netDA ((s.fake_B_pool.query (catB s.fake_B s.norm_fake_B) randB).2)) 0) * 0.5 ∧
    (backward_D_B netDB s randA).2 =
      (mse (netDB (catB s.syn_depth s.norm_syn)) 1 +
        mse (netDB ((s.fake_A_pool.query (catB s.fake_A s.norm_fake_A) randA).2)) 0) * 0.5 := by
  exact ⟨rfl, rfl⟩

/-- C7: the generator phase of `optimize_parameters` leaves both
parameters of both discriminators unchanged, and the discriminator phase (zeroing,
both backward passes, optimizer step) runs exactly when
`iters % fr = 0`; otherwise the call is the generator phase alone and the
discriminator parameters come out equal to their incoming values. -/
theorem C7_update_cadence (o : Autograd) (m : Nets) (iters fr : Nat) :
    (generator_phase o m).netD_A = m.netD_A ∧
    (generator_phase o m).netD_B = m.netD_B ∧
    optimize_parameters o m iters fr =
      (if iters % fr = 0 then discriminator_phase o (generator_phase o m)
       else generator_phase o m) ∧
    (optimize_parameters o m iters fr).netD_A =
      (if iters % fr = 0 then (discriminator_phase o (generator_phase o m)).netD_A
       else m.netD_A) ∧
    (optimize_parameters o m iters fr).netD_B =
      (if iters % fr = 0 then (discriminator_phase o (generator_phase o m)).netD_B
       else m.netD_B) := by
  refine ⟨rfl, rfl, rfl, ?_, ?_⟩ <;>
    · simp only [optimize_parameters]
      split <;> rfl

/-- C1 counterexample: with `use_rec_masks` disabled, `w_norm_cycle = 1` and
`lambda_B = 1`, at a one-pixel state where the plain L1 term is 0 and the
recorded norm sub-term is 1/3, the computed `loss_cycle_B` is 0, not the
claimed primary-plus-weighted-sub-term value 1/3: the disabled branch does
not add the sub-term. -/
theorem C1_cycle_B_counterexample :
    (backward_G exOptA (fun _ => []) (fun _ => []) exStateA).cycle_B ≠
      l1 exStateA.rec_B.flatten exStateA.real_depth.flatten * exOptA.lambda_B +
        (backward_G exOptA (fun _ => []) (fun _ => []) exStateA).cycle_B_norm *
          exOptA.w_norm_cycle := by
  norm_num [backward_G, exOptA, exStateA, exN3zero, l1, l1n, sumAbsDiff, hadamard,
    maskWhere, maskN3, mse, criterionGAN, catB]

/-- C1 amended: `loss_cycle_A` always carries the `w_norm_cycle`-weighted
normal sub-term; `loss_cycle_B` carries it (with masked operands) when
`use_rec_masks` is enabled, but with `use_rec_masks` disabled it is the
plain L1 term times `lambda_B` only — the norm sub-term is still computed
and recorded, just not added. -/
theorem C1_cycle_losses (opt : Opt) (netD_A netD_B : List (List ℚ) → List ℚ) (s : GState) :
    (backward_G opt netD_A netD_B s).cycle_A_norm =
      l1n s.norm_rec_A s.norm_syn * opt.lambda_A ∧
    (backward_G opt netD_A netD_B s).cycle_A =
      l1 s.rec_A.flatten s.syn_depth.flatten * opt.lambda_A +
        (backward_G opt netD_A netD_B s).cycle_A_norm * opt.w_norm_cycle ∧
    (backward_G opt netD_A netD_B s).cycle_B_norm =
      (if opt.use_rec_masks then
        l1n (maskN3 (maskN3 s.norm_rec_B (maskWhere s.real_depth.flatten))
            (maskWhere s.rec_B.flatten))
          (maskN3 (maskN3 s.norm_real (maskWhere s.real_depth.flatten))
            (maskWhere s.rec_B.flatten)) * opt.lambda_B
      else l1n s.norm_rec_B s.norm_real * opt.lambda_B) ∧
    (backward_G opt netD_A netD_B s).cycle_B =
      (if opt.use_rec_masks then
        l1 (hadamard (hadamard s.rec_B.flatten (maskWhere s.real_depth.flatten))
            (maskWhere s.rec_B.flatten))
          (hadamard (hadamard s.real_depth.flatten (maskWhere s.real_depth.flatten))
            (maskWhere s.rec_B.flatten)) * opt.lambda_B +
          (backward_G opt netD_A netD_B s).cycle_B_norm * opt.w_norm_cycle
      else l1 s.rec_B.flatten s.real_depth.flatten * opt.lambda_B) := by
  by_cases hm : opt.use_rec_masks <;>
    simp only [backward_G, hm, if_true, if_false, Bool.false_eq_true] <;>
    refine ⟨by trivial, by trivial, by trivial, by trivial⟩

/-- C2 counterexample: with `use_idt_masks` enabled and unit weights, at a
one-pixel state whose `syn_depth` pixel −1 lies below the −0.97 threshold,
the computed `loss_idt_B` is 1 while the claimed computation — both operands
multiplied by both 0/1 masks before the error — yields 0: the masks are not
applied to the `idt_B` term. -/
theorem C2_idt_mask_counterexample :
    (backward_G exOptB (fun _ => []) (fun _ => []) exStateB).idt_B = 1 ∧
    l1 (hadamard (hadamard exStateB.idt_B.flatten (maskWhere exStateB.syn_depth.flatten))
        (maskWhere exStateB.idt_B.flatten))
      (hadamard (hadamard exStateB.syn_depth.flatten (maskWhere exStateB.syn_depth.flatten))
        (maskWhere exStateB.idt_B.flatten)) = 0 := by
  constructor <;>
    norm_num [backward_G, exOptB, exStateB, exN3zero, l1, l1n, sumAbsDiff, hadamard,
      maskWhere, maskN3, mse, criterionGAN, catB]

/-- C2 amended: when `use_idt_masks` is enabled (and `lambda_identity > 0`),
the 0/1 depth-threshold masks are applied multiplicatively to both operands
of the `idt_A` term and its normal sub-term only; the `idt_B` term and its
sub-term are computed on unmasked operands. -/
theorem C2_idt_masks (opt : Opt) (netD_A netD_B : List (List ℚ) → List ℚ) (s : GState)
    (hm : opt.use_idt_masks = true) (hl : 0 < opt.lambda_identity) :
    (backward_G opt netD_A netD_B s).idt_A_norm =
      some (l1n (maskN3 (maskN3 s.norm_idt_A (maskWhere s.real_depth.flatten))
          (maskWhere s.idt_A.flatten))
        (maskN3 (maskN3 s.norm_real (maskWhere s.real_depth.flatten))
          (maskWhere s.idt_A.flatten)) * opt.lambda_B * opt.lambda_identity) ∧
    (backward_G opt netD_A netD_B s).idt_A =
      l1 (hadamard (hadamard s.idt_A.flatten (maskWhere s.real_depth.flatten))
          (maskWhere s.idt_A.flatten))
        (hadamard (hadamard s.real_depth.flatten (maskWhere s.real_depth.flatten))
          (maskWhere s.idt_A.flatten)) * opt.lambda_B * opt.lambda_identity +
        (l1n (maskN3 (maskN3 s.norm_idt_A (maskWhere s.real_depth.flatten))
            (maskWhere s.idt_A.flatten))
          (maskN3 (maskN3 s.norm_real (maskWhere s.real_depth.flatten))
            (maskWhere s.idt_A.flatten)) * opt.lambda_B * opt.lambda_identity) *
          opt.w_norm_idt ∧
    (backward_G opt netD_A netD_B s).idt_B_norm =
      some (l1n s.norm_idt_B s.norm_syn * opt.lambda_A * opt.lambda_identity) ∧
    (backward_G opt netD_A netD_B s).idt_B =
      l1 s.idt_B.flatten s.syn_depth.flatten * opt.lambda_A * opt.lambda_identity +
        (l1n s.norm_idt_B s.norm_syn * opt.lambda_A * opt.lambda_identity) *
          opt.w_norm_idt := by
  simp only [backward_G, hm, if_pos hl, if_true]
  refine ⟨by trivial, by trivial, by trivial, by trivial⟩

/-- C2 witness: the amended statement applied at a concrete configuration
and state with `use_idt_masks` enabled and `lambda_identity = 1`. -/
theorem C2_idt_masks_witness :
    exOptB.use_idt_masks = true ∧ 0 < exOptB.lambda_identity ∧
    (backward_G exOptB (fun _ => []) (fun _ => []) exStateB).idt_B =
      l1 exStateB.idt_B.flatten exStateB.syn_depth.flatten * exOptB.lambda_A *
          exOptB.lambda_identity +
        (l1n exStateB.norm_idt_B exStateB.norm_syn * exOptB.lambda_A *
          exOptB.lambda_identity) * exOptB.w_norm_idt :=
  ⟨rfl, by norm_num [exOptB],
    (C2_idt_masks exOptB (fun _ => []) (fun _ => []) exStateB rfl (by norm_num [exOptB])).2.2.2⟩

/-- C8: whenever `lambda_identity ≤ 0` both identity terms are exactly 0
(their norm sub-term attributes are not even assigned) and the composite
`loss_G` is the sum of the adversarial and cycle terms plus the optional
IoU contribution — the identity terms contribute nothing, regardless of all
other flags. -/
theorem C8_identity_disable (opt : Opt) (netD_A netD_B : List (List ℚ) → List ℚ)
    (s : GState) (h : opt.lambda_identity ≤ 0) :
    (backward_G opt netD_A netD_B s).idt_A = 0 ∧
    (backward_G opt netD_A netD_B s).idt_B = 0 ∧
    (backward_G opt netD_A netD_B s).idt_A_norm = none ∧
    (backward_G opt netD_A netD_B s).idt_B_norm = none ∧
    (backward_G opt netD_A netD_B s).G =
      (backward_G opt netD_A netD_B s).G_A + (backward_G opt netD_A netD_B s).G_B +
        (backward_G opt netD_A netD_B s).cycle_A + (backward_G opt netD_A netD_B s).cycle_B +
        (if opt.use_rec_iou_error && opt.back_rec_iou_error then
          loss_iou_rec_val s.real_depth s.rec_B
        else 0) := by
  have hnot : ¬ (0 < opt.lambda_identity) := not_lt.mpr h
  simp only [backward_G, if_neg hnot]
  refine ⟨by trivial, by trivial, by trivial, by trivial, ?_⟩
  by_cases hu : opt.use_rec_iou_error <;> by_cases hb : opt.back_rec_iou_error <;>
    simp [hu, hb, add_zero]

/-- C8 witness: the statement applied at a concrete configuration with
`lambda_identity = 0` and the IoU flags off. -/
theorem C8_identity_disable_witness :
    exOptA.lambda_identity ≤ 0 ∧
    (backward_G exOptA (fun _ => []) (fun _ => []) exStateA).idt_A = 0 ∧
    (backward_G exOptA (fun _ => []) (fun _ => []) exStateA).idt_B = 0 :=
  ⟨by norm_num [exOptA],
    (C8_identity_disable exOptA (fun _ => []) (fun _ => []) exStateA (by norm_num [exOptA])).1,
    (C8_identity_disable exOptA (fun _ => []) (fun _ => []) exStateA (by norm_num [exOptA])).2.1⟩

/-- Reduction of an `Except` bind on a success value. -/
theorem exbind_ok {α β : Type} (a : α) (f : α → Except PyError β) :
    (do
      let x ← Except.ok a
      f x) = f a := rfl

/-- Reduction of an `Except` bind on an error value. -/
theorem exbind_error {α β : Type} (e : PyError) (f : α → Except PyError β) :
    (do
      let x ← Except.error e
      f x) = (Except.error e : Except PyError β) := rfl

/-- On a float32 input, `gradient_for_normals` either succeeds or fails with
the out-of-bounds `IndexError`; it never raises the dtype `TypeError`. -/
theorem gradient_ok_or_index (t : Tensor4) (axis : Nat)
    (h : t.dtype = TorchDType.float32) :
    (∃ g, gradient_for_normals t axis = .ok g) ∨
      gradient_for_normals t axis = .error PyError.indexError := by
  simp only [gradient_for_normals, if_pos h]
  split
  · split
    · exact Or.inl ⟨_, rfl⟩
    · exact Or.inr rfl
  · split
    · exact Or.inl ⟨_, rfl⟩
    · exact Or.inr rfl

/-- C9: on any input whose dtype is not float32, `gradient_for_normals` —
and hence `SurfaceNormals.forward` — raises the dtype `TypeError` before
computing anything; on float32 inputs no `TypeError` is ever raised. -/
theorem C9_dtype_contract (t : Tensor4) (axis : Nat) :
    (t.dtype ≠ TorchDType.float32 →
      gradient_for_normals t axis = .error (.typeError "Input shold be torch.float32") ∧
      SurfaceNormals_forward t = .error (.typeError "Input shold be torch.float32")) ∧
    (t.dtype = TorchDType.float32 →
      ∀ msg, gradient_for_normals t axis ≠ .error (.typeError msg) ∧
        SurfaceNormals_forward t ≠ .error (.typeError msg)) := by
  constructor
  · intro h
    have hg : ∀ ax, gradient_for_normals t ax =
        .error (.typeError "Input shold be torch.float32") := fun ax => by
      simp only [gradient_for_normals, if_neg h]
    exact ⟨hg axis, by simp only [SurfaceNormals_forward, hg 2]; rfl⟩
  · intro h msg
    constructor
    · rcases gradient_ok_or_index t axis h with ⟨g, hg⟩ | hg <;> simp [hg]
    · rcases gradient_ok_or_index t 2 h with ⟨g2, hg2⟩ | hg2
      · rcases gradient_ok_or_index t 3 h with ⟨g3, hg3⟩ | hg3 <;>
          simp [SurfaceNormals_forward, hg2, hg3, exbind_ok, exbind_error]
      · simp [SurfaceNormals_forward, hg2, exbind_error]

/-- C9 witness: the contract applied to a concrete float64 tensor and to a
concrete float32 tensor. -/
theorem C9_dtype_contract_witness :
    (exT64.dtype ≠ TorchDType.float32 ∧
      gradient_for_normals exT64 2 = .error (.typeError "Input shold be torch.float32") ∧
      SurfaceNormals_forward exT64 = .error (.typeError "Input shold be torch.float32")) ∧
    (exT32.dtype = TorchDType.float32 ∧
      ∀ msg, gradient_for_normals exT32 2 ≠ .error (.typeError msg) ∧
        SurfaceNormals_forward exT32 ≠ .error (.typeError msg)) :=
  ⟨⟨by decide, ((C9_dtype_contract exT64 2).1 (by decide)).1,
      ((C9_dtype_contract exT64 2).1 (by decide)).2⟩,
    rfl, (C9_dtype_contract exT32 2).2 rfl⟩

/-- C10: on float32 inputs the normal estimator succeeds exactly when both
spatial extents are at least 2; with H = 1 or W = 1 (or 0) the one-sided
edge indexing is out of bounds and the call fails with an `IndexError` — a
precondition the spec does not state. -/
theorem C10_spatial_extent (t : Tensor4) (h : t.dtype = TorchDType.float32) :
    ((∃ N, SurfaceNormals_forward t = .ok N) ↔ 2 ≤ t.H ∧ 2 ≤ t.W) ∧
    (t.H < 2 ∨ t.W < 2 → SurfaceNormals_forward t = .error PyError.indexError) := by
  have h2 : gradient_for_normals t 2 =
      (if 2 ≤ t.H then
        .ok ⟨t.H, t.W, t.dtype, fun i j => gradVal t.H (fun k => t.d k j) i⟩
      else .error .indexError) := by
    simp [gradient_for_normals, h]
  have h3 : gradient_for_normals t 3 =
      (if 2 ≤ t.W then
        .ok ⟨t.H, t.W, t.dtype, fun i j => gradVal t.W (fun k => t.d i k) j⟩
      else .error .indexError) := by
    simp [gradient_for_normals, h]
  have ha : 2 ≤ t.H → 2 ≤ t.W → ∃ N, SurfaceNormals_forward t = .ok N := by
    intro hH hW
    cases hF : SurfaceNormals_forward t with
    | ok N => exact ⟨N, rfl⟩
    | error e =>
      simp only [SurfaceNormals_forward, h2, h3, if_pos hH, if_pos hW, exbind_ok] at hF
      cases hF
  have hb : ¬ 2 ≤ t.H → SurfaceNormals_forward t = .error PyError.indexError := by
    intro hH
    simp only [SurfaceNormals_forward, h2, if_neg hH, exbind_error]
  have hc : 2 ≤ t.H → ¬ 2 ≤ t.W → SurfaceNormals_forward t = .error PyError.indexError := by
    intro hH hW
    simp only [SurfaceNormals_forward, h2, h3, if_pos hH, if_neg hW, exbind_ok, exbind_error]
  refine ⟨⟨?_, ?_⟩, ?_⟩
  · rintro ⟨N, hN⟩
    by_cases hH : 2 ≤ t.H
    · by_cases hW : 2 ≤ t.W
      · exact ⟨hH, hW⟩
      · rw [hc hH hW] at hN; cases hN
    · rw [hb hH] at hN; cases hN
  · rintro ⟨hH, hW⟩
    exact ha hH hW
  · intro hlt
    rcases hlt with hH | hW
    · exact hb (by omega)
    · by_cases hH2 : 2 ≤ t.H
      · exact hc hH2 (by omega)
      · exact hb hH2

/-- C10 witness: success on a 2×2 float32 tensor, failure on a 1×5 float32
tensor. -/
theorem C10_spatial_extent_witness :
    (exT32.dtype = TorchDType.float32 ∧
      ((∃ N, SurfaceNormals_forward exT32 = .ok N) ↔ 2 ≤ exT32.H ∧ 2 ≤ exT32.W)) ∧
    (exT32thin.dtype = TorchDType.float32 ∧
      SurfaceNormals_forward exT32thin = .error PyError.indexError) :=
  ⟨⟨rfl, (C10_spatial_extent exT32 rfl).1⟩,
    rfl, (C10_spatial_extent exT32thin rfl).2 (Or.inl (by decide))⟩

/-- C6: on a float32 input with both spatial extents at least 2, the
output of the estimator is exactly the claimed formula: per-axis central
differences `(f[i+1] - f[i-1]) / 2` on interior indices, one-sided
differences `f[1] - f[0]` and `f[-1] - f[-2]` at the endpoints, both
gradients negated, stacked with a constant-1 third channel, and divided by
the per-pixel L2 norm plus 1e-6. -/
theorem C6_surface_normal_formula (t : Tensor4) (hdt : t.dtype = TorchDType.float32)
    (hH : 2 ≤ t.H) (hW : 2 ≤ t.W) :
    SurfaceNormals_forward t = .ok (claimNormal t) := by
  have h2 : gradient_for_normals t 2 =
      .ok ⟨t.H, t.W, t.dtype, fun i j => gradVal t.H (fun k => t.d k j) i⟩ := by
    simp [gradient_for_normals, hdt, hH]
  have h3 : gradient_for_normals t 3 =
      .ok ⟨t.H, t.W, t.dtype, fun i j => gradVal t.W (fun k => t.d i k) j⟩ := by
    simp [gradient_for_normals, hdt, hW]
  simp only [SurfaceNormals_forward, h2, h3, Except.bind]
  refine congrArg Except.ok (NormalMap.ext rfl rfl ?_ ?_ ?_) <;>
    · funext i j
      simp only [claimNormal, claimGradH, claimGradW, gradVal]
      rw [neg_sq, neg_sq, one_pow]

/-- C6 witness: the formula theorem applied to a concrete 2×2 float32
tensor. -/
theorem C6_surface_normal_formula_witness :
    exT32.dtype = TorchDType.float32 ∧ 2 ≤ exT32.H ∧ 2 ≤ exT32.W ∧
    SurfaceNormals_forward exT32 = .ok (claimNormal exT32) :=
  ⟨rfl, by decide, by decide,
    C6_surface_normal_formula exT32 rfl (by decide) (by decide)⟩

/-- When every pixel is below the −0.99 threshold the hole mask is all
ones. -/
theorem holes_all_below (l : List ℚ) (h : ∀ x ∈ l, x < -0.99) :
    holes l = List.replicate l.length 1 := by
  induction l with
  | nil => rfl
  | cons a l ih =>
    have ha : a < -0.99 := h a (List.mem_cons_self a l)
    simp only [holes, List.map_cons, List.length_cons, List.replicate_succ, if_pos ha]
    congr 1
    exact ih fun x hx => h x (List.mem_cons_of_mem a hx)

/-- Zipping a list with an all-ones list of its own length pairs every
element with 1. -/
theorem zip_replicate_one (a : List ℚ) (n : Nat) (h : a.length = n) :
    a.zip (List.replicate n (1 : ℚ)) = a.map fun x => (x, 1) := by
  induction a generalizing n with
  | nil => simp
  | cons x xs ih =>
    cases n with
    | zero => simp at h
    | succ m =>
      simp only [List.replicate_succ, List.zip_cons_cons, List.map_cons]
      congr 1
      exact ih m (by simpa using h)

/-- Multiplying elementwise by an all-ones list of matching length is the
identity. -/
theorem hadamard_replicate_one (a : List ℚ) (n : Nat) (h : a.length = n) :
    hadamard a (List.replicate n 1) = a := by
  have h1 : hadamard a (List.replicate n 1) = a.map fun x => x * 1 := by
    simp only [hadamard, zip_replicate_one a n h, List.map_map]
    rfl
  rw [h1]
  simp

/-- The logical AND of two all-ones masks of equal length is all ones. -/
theorem andMask_replicate (n : Nat) :
    andMask (List.replicate n 1) (List.replicate n 1) = List.replicate n 1 := by
  have hz := zip_replicate_one (List.replicate n (1 : ℚ)) n (by simp)
  simp only [andMask, hz, List.map_replicate]
  norm_num

/-- When every pixel of both operands lies below −0.99, all three masks of
the IoU block are all ones, so the per-sample IoU collapses to
`(Σ(−rec_B) + SMOOTH) / (Σ(−real_depth) + SMOOTH)`. -/
theorem iouSample_all_below (r c : List ℚ) (hlen : r.length = c.length)
    (hr : ∀ x ∈ r, x < -0.99) (hc : ∀ x ∈ c, x < -0.99) :
    iouSample r c =
      ((c.map fun v => -v).sum + SMOOTH) / ((r.map fun v => -v).sum + SMOOTH) := by
  simp only [iouSample, holes_all_below r hr, holes_all_below c hc, hlen, andMask_replicate]
  rw [hadamard_replicate_one (c.map fun v => -v) c.length (by simp),
    hadamard_replicate_one (r.map fun v => -v) c.length (by simp [hlen])]
  congr 1
  ring

/-- C3 counterexample: with `use_rec_iou_error` enabled, at a one-pixel
batch with `real_depth = rec_B = −1` (everything below −0.99), the recorded
`loss_iou_rec` is 1/2, not 1.0, and 1/2 is not within the 1e-6 tolerance of
1.0: the recorded term is the batch-mean IoU multiplied by 0.5. -/
theorem C3_iou_counterexample :
    (backward_G exOptC (fun _ => []) (fun _ => []) exStateC).iou_rec = some (1/2) ∧
    ¬ |(1 : ℚ)/2 - 1| ≤ 1e-6 := by
  constructor
  · norm_num [backward_G, exOptC, exStateC, exN3zero, loss_iou_rec_val, iouSample,
      holes, andMask, hadamard, meanQ, SMOOTH, l1, l1n, sumAbsDiff, mse, criterionGAN,
      catB, maskWhere, maskN3]
  · intro hcon
    have h2 : |(1 : ℚ)/2 - 1| = 1/2 := by
      have hv : (1 : ℚ)/2 - 1 = -(1/2) := by norm_num
      rw [hv, abs_neg, abs_of_pos (by norm_num : (0 : ℚ) < 1/2)]
    rw [h2] at hcon
    norm_num at hcon

/-- C3 amended: with `use_rec_iou_error` enabled, for every batch in which
every pixel of `real_depth` and of `rec_B` lies below −0.99, the recorded
`loss_iou_rec` equals half the batch mean of the per-sample ratios
`(Σ(−rec_B) + SMOOTH) / (Σ(−real_depth) + SMOOTH)`; each ratio is 1 only
when the two sums coincide (e.g. `rec_B = real_depth`), and even then the
recorded value is 0.5, not 1.0. -/
theorem C3_iou_all_holes (opt : Opt) (netD_A netD_B : List (List ℚ) → List ℚ)
    (s : GState) (hf : opt.use_rec_iou_error = true)
    (hall : ∀ p ∈ s.real_depth.zip s.rec_B, p.1.length = p.2.length ∧
      (∀ x ∈ p.1, x < -0.99) ∧ (∀ x ∈ p.2, x < -0.99)) :
    (backward_G opt netD_A netD_B s).iou_rec =
      some (meanQ ((s.real_depth.zip s.rec_B).map fun p =>
        ((p.2.map fun v => -v).sum + SMOOTH) /
          ((p.1.map fun v => -v).sum + SMOOTH)) * 0.5) := by
  have hiou : ∀ (ra cb : List (List ℚ)),
      (∀ p ∈ ra.zip cb, p.1.length = p.2.length ∧
        (∀ x ∈ p.1, x < -0.99) ∧ (∀ x ∈ p.2, x < -0.99)) →
      List.zipWith iouSample ra cb = (ra.zip cb).map fun p =>
        ((p.2.map fun v => -v).sum + SMOOTH) / ((p.1.map fun v => -v).sum + SMOOTH) := by
    intro ra
    induction ra with
    | nil => intro cb _; cases cb <;> rfl
    | cons r ra ih =>
      intro cb hcb
      cases cb with
      | nil => rfl
      | cons c cb =>
        simp only [List.zip_cons_cons, List.zipWith_cons_cons, List.map_cons]
        have h0 := hcb (r, c) (List.mem_cons_self _ _)
        rw [iouSample_all_below r c h0.1 h0.2.1 h0.2.2]
        congr 1
        exact ih cb fun p hp => hcb p (List.mem_cons_of_mem _ hp)
  simp only [backward_G, loss_iou_rec_val, hf, if_true]
  rw [hiou s.real_depth s.rec_B hall]

/-- C3 witness: the amended statement applied at a two-pixel batch entirely
below the threshold with distinct sums. -/
theorem C3_iou_all_holes_witness :
    exOptC.use_rec_iou_error = true ∧
    (∀ p ∈ exStateD.real_depth.zip exStateD.rec_B, p.1.length = p.2.length ∧
      (∀ x ∈ p.1, x < -0.99) ∧ (∀ x ∈ p.2, x < -0.99)) ∧
    (backward_G exOptC (fun _ => []) (fun _ => []) exStateD).iou_rec =
      some (meanQ ((exStateD.real_depth.zip exStateD.rec_B).map fun p =>
        ((p.2.map fun v => -v).sum + SMOOTH) /
          ((p.1.map fun v => -v).sum + SMOOTH)) * 0.5) := by
  have hall : ∀ p ∈ exStateD.real_depth.zip exStateD.rec_B, p.1.length = p.2.length ∧
      (∀ x ∈ p.1, x < -0.99) ∧ (∀ x ∈ p.2, x < -0.99) := by
    intro p hp
    simp only [exStateD, List.zip_cons_cons, List.zip_nil_right, List.mem_singleton] at hp
    subst hp
    refine ⟨rfl, ?_, ?_⟩ <;> intro x hx <;>
      simp only [List.mem_cons, List.mem_singleton, List.not_mem_nil, or_false] at hx <;>
      rcases hx with h | h <;> subst h <;> norm_num
  exact ⟨rfl, hall, C3_iou_all_holes exOptC (fun _ => []) (fun _ => []) exStateD rfl hall⟩

end DepthSR
